import Mathlib

/-
Verification of the Smart-Hygiene-Station firmware (three ESP8266 nodes:
water dispenser, soap dispenser, tissue dispenser).

Shallow embedding of the three Arduino sketches:
  * the water node  (water_dispenser sketch, src/unnamed/part_000)
  * the soap node   (soap_dispenser.ino)
  * the tissue node (tissue_dispenser.ino)

Modelling conventions:
  * `millis()` is an idealised monotone millisecond clock of type `Nat`;
    every statement other than an explicit `delay(...)` is charged zero
    time, and each `delay(d)` advances the clock by exactly `d`.  The
    32-bit wraparound of `unsigned long` (after ~49 days) is irrelevant to
    every claim considered and is not modelled; the unsigned comparison
    `millis() - start >= D` is rendered with truncated `Nat` subtraction,
    which agrees with the unsigned computation whenever the clock has not
    wrapped since `start` was recorded.
  * The C float arithmetic in the percentage conversion and the distance
    conversion is idealised over `ℚ` (the constants 13.0 and 2 are exact
    in both; the verdicts proved below do not depend on rounding).
  * HTTP requests sent by `sendCompletionSignal` / `sendResetSignal` are
    recorded as a list of (peer, stage) messages; the inbound
    `/update_stage` handler is modelled on the parsed query parameter
    (`server.hasArg`/`toInt`) as an `Option Int`.
  * Pin writes to LEDs are pure outputs; the water/soap low-level red LED
    is recorded, other LED writes carry no state and are omitted.  The
    tissue buzzer's tone/noTone pair relevant to the claims is recorded
    as the clock instants at which `tone` (line 105) and the
    200 ms-window `noTone` (line 126) execute.
-/

/-- The three nodes, used to address peer-notification messages. -/
inductive Peer
  | water
  | soap
  | tissue
deriving DecidableEq

/-- An outbound `/update_stage?stage=v` notification: target peer and stage value. -/
abbrev Msg := Peer × Int

/-- `const float containerHeight = 13.0;` (identical in the water and soap sketches). -/
def containerHeight : ℚ := 13

/-- Water sketch, `getWaterLevelPercentage`:
`waterLevel = (1 - (sensorDistance / containerHeight)) * 100`, clamped to [0, 100]. -/
def getWaterLevelPercentage (sensorDistance : Int) : ℚ :=
  let waterLevel : ℚ := (1 - (sensorDistance : ℚ) / containerHeight) * 100
  if waterLevel < 0 then 0 else if waterLevel > 100 then 100 else waterLevel

/-- Soap sketch, `getSoapLevelPercentage`: textually the same computation as
`getWaterLevelPercentage` (same container height, same clamp). -/
def getSoapLevelPercentage (sensorDistance : Int) : ℚ :=
  let waterLevel : ℚ := (1 - (sensorDistance : ℚ) / containerHeight) * 100
  if waterLevel < 0 then 0 else if waterLevel > 100 then 100 else waterLevel

/-- `getDistance` (water and soap sketches): `pulseIn` yields the echo pulse
duration, 0 on timeout; the sketch returns `(duration * 0.034) / 2` truncated
to `int` when `duration > 0`, and the sentinel `-1` otherwise. -/
def getDistance (pulseDuration : Int) : Int :=
  if pulseDuration > 0 then Int.floor ((pulseDuration : ℚ) * (34 / 1000) / 2) else -1

/-- Mutable globals of the water sketch (`processStage`, `distance1`,
`distance2`, `pumpRunning`, `pumpStartTime`). -/
structure WaterState where
  processStage : Int
  distance1 : Int
  distance2 : Int
  pumpRunning : Bool
  pumpStartTime : Nat
deriving DecidableEq

/-- Mutable globals of the soap sketch. -/
structure SoapState where
  processStage : Int
  distance1 : Int
  pumpRunning : Bool
  pumpStartTime : Nat
deriving DecidableEq

/-- Mutable globals of the tissue sketch (`processStage`, `hasRotated`,
`buzzerActive`, `buzzerStartTime`). -/
structure TissueState where
  processStage : Int
  hasRotated : Bool
  buzzerActive : Bool
  buzzerStartTime : Nat
deriving DecidableEq

/-- Water sketch `updateStage` handler: `server.hasArg("stage")` present means
the parsed integer overwrites `processStage` and a 200 response is sent;
otherwise a 400 response is sent and the state is untouched. -/
def waterUpdateStage (arg : Option Int) (s : WaterState) : WaterState × Nat :=
  match arg with
  | some v => ({ s with processStage := v }, 200)
  | none => (s, 400)

/-- Soap sketch `updateStage` handler (same body as the water node's). -/
def soapUpdateStage (arg : Option Int) (s : SoapState) : SoapState × Nat :=
  match arg with
  | some v => ({ s with processStage := v }, 200)
  | none => (s, 400)

/-- Tissue sketch `updateStage` handler (same body as the water node's). -/
def tissueUpdateStage (arg : Option Int) (s : TissueState) : TissueState × Nat :=
  match arg with
  | some v => ({ s with processStage := v }, 200)
  | none => (s, 400)

/-- Water sketch `sendCompletionSignal`: reads the global `processStage`;
at stage 0 it sends stage 1 to the soap (node 2) and tissue (node 3) peers,
at stage 2 it sends stage 3 to both, otherwise it sends nothing. -/
def waterSendCompletionSignal (processStage : Int) : List Msg :=
  if processStage = 0 then [(Peer.soap, 1), (Peer.tissue, 1)]
  else if processStage = 2 then [(Peer.soap, 3), (Peer.tissue, 3)]
  else []

/-- Soap sketch `sendCompletionSignal`: unconditionally sends stage 2 to the
water (node 1) and tissue (node 3) peers. -/
def soapSendCompletionSignal : List Msg := [(Peer.water, 2), (Peer.tissue, 2)]

/-- Tissue sketch `sendResetSignal`: unconditionally sends stage 0 to the
water (node 1) and soap (node 2) peers. -/
def sendResetSignal : List Msg := [(Peer.water, 0), (Peer.soap, 0)]

/-- Result of one iteration of the water sketch's `loop`. -/
structure WaterStep where
  state : WaterState
  msgs : List Msg
  clockEnd : Nat
  redLed : Bool
deriving DecidableEq

/-- One iteration of the water sketch's `loop` (after `server.handleClient`):
read `distance1`, `delay(50)`, read `distance2`, drive the low-level red LED,
then the pump start branch (with the stage-2 `delay(5000)` grace pause before
starting) and the pump stop branch (stop after 5000 ms, notify peers, advance
the stage, `delay(500)`).  `t` is `millis()` at the start of the iteration. -/
def waterLoopStep (s : WaterState) (d1 d2 : Int) (t : Nat) : WaterStep :=
  let s0 : WaterState := { s with distance1 := d1, distance2 := d2 }
  let t1 := t + 50
  let red : Bool := decide (getWaterLevelPercentage d1 < 20)
  let started : Bool :=
    decide ((s0.processStage = 0 ∧ s0.distance2 < 10) ∨ s0.processStage = 2) && !s0.pumpRunning
  let t2 := if started && decide (s0.processStage = 2) then t1 + 5000 else t1
  let s2 : WaterState :=
    if started then { s0 with pumpRunning := true, pumpStartTime := t2 } else s0
  if s2.pumpRunning = true ∧ t2 - s2.pumpStartTime ≥ 5000 then
    let msgs := waterSendCompletionSignal s2.processStage
    let newStage : Int :=
      if s2.processStage = 0 then 1 else if s2.processStage = 2 then 3 else s2.processStage
    { state := { s2 with pumpRunning := false, processStage := newStage },
      msgs := msgs, clockEnd := t2 + 500, redLed := red }
  else
    { state := s2, msgs := [], clockEnd := t2, redLed := red }

/-- Result of one iteration of the soap sketch's `loop`. -/
structure SoapStep where
  state : SoapState
  msgs : List Msg
  clockEnd : Nat
  redLed : Bool
deriving DecidableEq

/-- One iteration of the soap sketch's `loop` (after `server.handleClient`):
read `distance1`, `delay(50)`, drive the low-level red LED, start the pump
when `processStage == 1 && !pumpRunning`, and stop it 2000 ms after
`pumpStartTime`, unconditionally notifying both peers and setting the stage
to 2 on stop (followed by `delay(500)`). -/
def soapLoopStep (s : SoapState) (d1 : Int) (t : Nat) : SoapStep :=
  let s0 : SoapState := { s with distance1 := d1 }
  let t1 := t + 50
  let red : Bool := decide (getSoapLevelPercentage d1 < 20)
  let s2 : SoapState :=
    if s0.processStage = 1 ∧ s0.pumpRunning = false then
      { s0 with pumpRunning := true, pumpStartTime := t1 }
    else s0
  if s2.pumpRunning = true ∧ t1 - s2.pumpStartTime ≥ 2000 then
    { state := { s2 with pumpRunning := false, processStage := 2 },
      msgs := soapSendCompletionSignal, clockEnd := t1 + 500, redLed := red }
  else
    { state := s2, msgs := [], clockEnd := t1, redLed := red }

/-- Wall-clock duration of `rotateServoSlowly(fromAngle, toAngle, stepDelay)`:
the ascending loop `for (angle = from; angle <= to; angle += 2)` runs
`(to - from) / 2 + 1` iterations, each ending in `delay(stepDelay)` (the
descending branch is symmetric). -/
def rotateServoDuration (fromAngle toAngle : Int) (stepDelay : Nat) : Nat :=
  if fromAngle < toAngle then ((toAngle - fromAngle).toNat / 2 + 1) * stepDelay
  else ((fromAngle - toAngle).toNat / 2 + 1) * stepDelay

/-- Result of one iteration of the tissue sketch's `loop`.  `buzzerStart` /
`buzzerStop` record the clock instants at which the confirmation `tone`
(line 105) and the 200 ms-window `noTone` (line 126) executed, if they did. -/
structure TissueStep where
  state : TissueState
  msgs : List Msg
  clockEnd : Nat
  buzzerStart : Option Nat
  buzzerStop : Option Nat
deriving DecidableEq

/-- One iteration of the tissue sketch's `loop` (after `server.handleClient`).
Everything happens inside `if (processStage == 3)`.  If the microswitch reads
HIGH (tissue out) only the LEDs/buzzer pin are driven.  Otherwise, if
`hasRotated` is still false: `delay(200)` debounce, start the confirmation
buzzer if it is not already active (recording `buzzerStartTime = millis()`),
run the blocking sweep `rotateServoSlowly(90, 180, 40)` (which sets
`hasRotated = true`), `delay(1000)`, return the servo to 90, and — since
`hasRotated` is now true — send the reset messages, set `processStage = 0`
and clear `hasRotated` in this same iteration.  Finally the independent
buzzer stop check: if `buzzerActive` and 200 ms have elapsed since
`buzzerStartTime`, silence the buzzer and clear `buzzerActive`. -/
def tissueLoopStep (s : TissueState) (switchHigh : Bool) (t : Nat) : TissueStep :=
  if s.processStage = 3 then
    let branch : TissueState × List Msg × Nat × Option Nat :=
      if switchHigh then
        (s, [], t, none)
      else if s.hasRotated = false then
        let tDeb := t + 200
        let bStart : Option Nat := if s.buzzerActive = false then some tDeb else none
        let s1 : TissueState :=
          if s.buzzerActive = false then
            { s with buzzerActive := true, buzzerStartTime := tDeb }
          else s
        let tSweep := tDeb + rotateServoDuration 90 180 40
        let s2 : TissueState := { s1 with hasRotated := true }
        let tHold := tSweep + 1000
        let s3 : TissueState :=
          if s2.hasRotated = true then { s2 with processStage := 0, hasRotated := false } else s2
        let msgs : List Msg := if s2.hasRotated = true then sendResetSignal else []
        (s3, msgs, tHold, bStart)
      else
        (s, [], t, none)
    match branch with
    | (s1, msgs, t1, bStart) =>
      if s1.buzzerActive = true ∧ t1 - s1.buzzerStartTime ≥ 200 then
        { state := { s1 with buzzerActive := false }, msgs := msgs, clockEnd := t1,
          buzzerStart := bStart, buzzerStop := some t1 }
      else
        { state := s1, msgs := msgs, clockEnd := t1, buzzerStart := bStart, buzzerStop := none }
  else
    { state := s, msgs := [], clockEnd := t, buzzerStart := none, buzzerStop := none }

/-- Rendering of a C `bool` by the ternaries in the three `serveStatus`
handlers (`pumpRunning ? "true" : "false"` and the like). -/
def boolJson (b : Bool) : String := if b then "true" else "false"

/-- Body built by the water sketch's `serveStatus` (Arduino `String(int)`
renders decimal, as `toString` on `Int` does). -/
def waterStatusJson (s : WaterState) : String :=
  "\x7b" ++ "\"water_level\":" ++ toString s.distance1 ++ ","
    ++ "\"hand_distance\":" ++ toString s.distance2 ++ ","
    ++ "\"pump_running\":" ++ boolJson s.pumpRunning ++ ","
    ++ "\"process_stage\":" ++ toString s.processStage
    ++ "\x7d"

/-- Water sketch `serveStatus`: `server.send(200, "application/json", json)`. -/
def waterServeStatus (s : WaterState) : Nat × String := (200, waterStatusJson s)

/-- Body built by the soap sketch's `serveStatus`. -/
def soapStatusJson (s : SoapState) : String :=
  "\x7b" ++ "\"soap_level\":" ++ toString s.distance1 ++ ","
    ++ "\"pump_running\":" ++ boolJson s.pumpRunning ++ ","
    ++ "\"process_stage\":" ++ toString s.processStage
    ++ "\x7d"

/-- Soap sketch `serveStatus`. -/
def soapServeStatus (s : SoapState) : Nat × String := (200, soapStatusJson s)

/-- Body built by the tissue sketch's `serveStatus`; `switchHigh` is the live
`digitalRead(microswitch) == HIGH`.  Note the comma appended after the
`servo_rotated` field, directly before the closing brace (source line 169). -/
def tissueStatusJson (s : TissueState) (switchHigh : Bool) : String :=
  "\x7b" ++ "\"process_stage\":" ++ toString s.processStage ++ ","
    ++ "\"microswitch\":" ++ boolJson switchHigh ++ ","
    ++ "\"servo_rotated\":" ++ boolJson s.hasRotated ++ ","
    ++ "\x7d"

/-- Tissue sketch `serveStatus`. -/
def tissueServeStatus (s : TissueState) (switchHigh : Bool) : Nat × String :=
  (200, tissueStatusJson s switchHigh)

/-- JSON whitespace (RFC 8259). -/
def isJsonWs (c : Char) : Bool := c = ' ' ∨ c = '\t' ∨ c = '\n' ∨ c = '\r'

/-- Drop leading JSON whitespace. -/
def skipWs : List Char → List Char
  | [] => []
  | c :: cs => if isJsonWs c then skipWs cs else c :: cs

/-- Consume the remainder of a JSON string after the opening quote; a
backslash escapes the following character. -/
def parseStringBody : List Char → Option (List Char)
  | [] => none
  | c :: cs =>
    if c = '"' then some cs
    else if c = '\\' then
      match cs with
      | [] => none
      | _ :: cs2 => parseStringBody cs2
    else parseStringBody cs

/-- Consume a nonempty run of decimal digits. -/
def parseDigits (cs : List Char) : Option (List Char) :=
  match cs with
  | c :: _ => if c.isDigit then some (cs.dropWhile fun d => d.isDigit) else none
  | [] => none

/-- Consume an optional fractional part `.digits`. -/
def parseFrac (cs : List Char) : Option (List Char) :=
  match cs with
  | '.' :: rest => parseDigits rest
  | _ => some cs

/-- Consume an optional exponent part `(e|E)(+|-)?digits`. -/
def parseExpPart (cs : List Char) : Option (List Char) :=
  match cs with
  | c :: rest =>
    if c = 'e' ∨ c = 'E' then
      match rest with
      | c2 :: rest2 => if c2 = '+' ∨ c2 = '-' then parseDigits rest2 else parseDigits rest
      | [] => none
    else some cs
  | [] => some cs

/-- Consume a JSON number: optional minus, digits, optional fraction and exponent. -/
def parseNumber (cs : List Char) : Option (List Char) :=
  let cs1 := match cs with
    | '-' :: rest => rest
    | _ => cs
  (parseDigits cs1).bind fun cs2 => (parseFrac cs2).bind parseExpPart

mutual

/-- Fuel-indexed recogniser for a JSON value; returns the unconsumed suffix. -/
def parseValue : Nat → List Char → Option (List Char)
  | 0, _ => none
  | f + 1, cs =>
    match skipWs cs with
    | '\x7b' :: rest =>
      (match skipWs rest with
       | '\x7d' :: r2 => some r2
       | cs2 => parseMember f cs2)
    | '[' :: rest =>
      (match skipWs rest with
       | ']' :: r2 => some r2
       | cs2 => parseElem f cs2)
    | '"' :: rest => parseStringBody rest
    | 't' :: 'r' :: 'u' :: 'e' :: rest => some rest
    | 'f' :: 'a' :: 'l' :: 's' :: 'e' :: rest => some rest
    | 'n' :: 'u' :: 'l' :: 'l' :: rest => some rest
    | cs2 => parseNumber cs2

/-- One `"key": value` object member, then either `, members` or the closing brace. -/
def parseMember : Nat → List Char → Option (List Char)
  | 0, _ => none
  | f + 1, cs =>
    match skipWs cs with
    | '"' :: rest =>
      (match parseStringBody rest with
       | some cs2 =>
         (match skipWs cs2 with
          | ':' :: cs3 =>
            (match parseValue f cs3 with
             | some cs4 =>
               (match skipWs cs4 with
                | ',' :: cs5 => parseMember f cs5
                | '\x7d' :: cs5 => some cs5
                | _ => none)
             | none => none)
          | _ => none)
       | none => none)
    | _ => none

/-- One array element, then either `, elements` or the closing bracket. -/
def parseElem : Nat → List Char → Option (List Char)
  | 0, _ => none
  | f + 1, cs =>
    match parseValue f cs with
    | some cs2 =>
      (match skipWs cs2 with
       | ',' :: cs3 => parseElem f cs3
       | ']' :: cs3 => some cs3
       | _ => none)
    | none => none

end

/-- A string is a well-formed JSON value when the recogniser consumes it
entirely (up to trailing whitespace). -/
def isJsonValue (s : String) : Bool :=
  match parseValue (s.length + 2) s.data with
  | some rest => (skipWs rest).isEmpty
  | none => false

/-- Clamped percentage is antitone in the raw distance (helper for the
level-percentage analysis). -/
theorem getWaterLevelPercentage_antitone {d e : Int} (h : d ≤ e) :
    getWaterLevelPercentage e ≤ getWaterLevelPercentage d := by
  have hde : (d : ℚ) ≤ (e : ℚ) := by exact_mod_cast h
  have key : (1 - (e : ℚ) / 13) * 100 ≤ (1 - (d : ℚ) / 13) * 100 := by linarith
  simp only [getWaterLevelPercentage, containerHeight]
  split_ifs <;> linarith

/-- C1 counterexample: the -1 sensor-timeout sentinel is clamped to 100
(container reads "full"), not to 0 as the claim states. -/
theorem percentage_sentinel_cx :
    getWaterLevelPercentage (-1) = 100 ∧ getSoapLevelPercentage (-1) = 100 ∧
    (100 : ℚ) ≠ 0 := by
  refine ⟨?_, ?_, by norm_num⟩ <;>
    · simp only [getWaterLevelPercentage, getSoapLevelPercentage, containerHeight]
      norm_num

/-- C1 (amended): the level-percentage functions are monotonically decreasing
in the raw distance and clamped to [0, 100]; percentage(0) = 100,
percentage(containerHeight) = 0, percentage(d) = 0 for d > containerHeight,
but percentage(d) = 100 (not 0) for d < 0, so the -1 timeout sentinel reads
as "full"; the soap function agrees with the water function everywhere. -/
theorem percentage_clamped_antitone :
    (∀ d e : Int, d ≤ e → getWaterLevelPercentage e ≤ getWaterLevelPercentage d) ∧
    (∀ d : Int, 0 ≤ getWaterLevelPercentage d ∧ getWaterLevelPercentage d ≤ 100) ∧
    getWaterLevelPercentage 0 = 100 ∧
    getWaterLevelPercentage 13 = 0 ∧
    (∀ d : Int, 13 < d → getWaterLevelPercentage d = 0) ∧
    (∀ d : Int, d < 0 → getWaterLevelPercentage d = 100) ∧
    (∀ d : Int, getSoapLevelPercentage d = getWaterLevelPercentage d) := by
  refine ⟨fun d e h => getWaterLevelPercentage_antitone h, ?_, ?_, ?_, ?_, ?_, fun d => rfl⟩
  · intro d
    constructor <;>
      · simp only [getWaterLevelPercentage, containerHeight]
        split_ifs <;> linarith
  · simp only [getWaterLevelPercentage, containerHeight]
    norm_num
  · simp only [getWaterLevelPercentage, containerHeight]
    norm_num
  · intro d hd
    have hdq : (13 : ℚ) < (d : ℚ) := by exact_mod_cast hd
    have hw : (1 - (d : ℚ) / 13) * 100 < 0 := by linarith
    simp only [getWaterLevelPercentage, containerHeight]
    rw [if_pos hw]
  · intro d hd
    have hdq : (d : ℚ) < 0 := by exact_mod_cast hd
    have hw : (1 - (d : ℚ) / 13) * 100 > 100 := by linarith
    have hw0 : ¬ (1 - (d : ℚ) / 13) * 100 < 0 := by linarith
    simp only [getWaterLevelPercentage, containerHeight]
    rw [if_neg hw0, if_pos hw]

/-- C1 witness: the amended theorem at concrete inputs. -/
theorem percentage_clamped_antitone_w :
    getWaterLevelPercentage 7 ≤ getWaterLevelPercentage 5 ∧
    getWaterLevelPercentage 20 = 0 ∧
    getWaterLevelPercentage (-2) = 100 := by
  refine ⟨percentage_clamped_antitone.1 5 7 (by decide),
         percentage_clamped_antitone.2.2.2.2.1 20 (by decide),
         percentage_clamped_antitone.2.2.2.2.2.1 (-2) (by decide)⟩

/-- C2 counterexample: tissue node at stage 3, switch closed, not yet rotated —
the very same iteration that performs the sweep also sends the stage-0 reset
to both peers, sets the local stage to 0 and clears `rotated` (because
`rotateServoSlowly` sets `hasRotated` before the `if (hasRotated)` check),
contradicting the claimed two-iteration handshake. -/
theorem tissue_reset_not_deferred_cx :
    (tissueLoopStep ⟨3, false, false, 0⟩ false 0).msgs ≠ [] ∧
    (tissueLoopStep ⟨3, false, false, 0⟩ false 0).msgs = [(Peer.water, 0), (Peer.soap, 0)] ∧
    (tissueLoopStep ⟨3, false, false, 0⟩ false 0).state.processStage = 0 ∧
    (tissueLoopStep ⟨3, false, false, 0⟩ false 0).state.hasRotated = false := by decide

/-- C2 (amended): tissue node in stage 3 with the microswitch reading closed
and `rotated` still false — the iteration performs the debounce and the servo
sweep, which sets `rotated` to true, and then, in this same iteration (the
handshake is collapsed into one iteration, since the sweep runs before the
`if (hasRotated)` check), sends the stage-0 reset to both peers, sets the
local stage to 0 and clears `rotated`. -/
theorem tissue_reset_same_iteration (s : TissueState) (t : Nat)
    (h3 : s.processStage = 3) (hr : s.hasRotated = false) :
    (tissueLoopStep s false t).state.processStage = 0 ∧
    (tissueLoopStep s false t).state.hasRotated = false ∧
    (tissueLoopStep s false t).msgs = [(Peer.water, 0), (Peer.soap, 0)] ∧
    (tissueLoopStep s false t).clockEnd = t + 3040 := by
  obtain ⟨st, rot, ba, bst⟩ := s
  simp only at h3 hr
  subst h3; subst hr
  have hdur : rotateServoDuration 90 180 40 = 1840 := by decide
  cases ba
  · have harith : t + 200 + 1840 + 1000 - (t + 200) = 2840 := by omega
    simp [tissueLoopStep, hdur, harith, sendResetSignal]
  · simp only [tissueLoopStep, hdur, sendResetSignal]
    norm_num
    split_ifs <;> simp

/-- C2 witness: the amended theorem at a concrete state (buzzer already
active, arbitrary start time) and a concrete clock. -/
theorem tissue_reset_same_iteration_w :
    (tissueLoopStep ⟨3, false, true, 40⟩ false 7).state.processStage = 0 ∧
    (tissueLoopStep ⟨3, false, true, 40⟩ false 7).state.hasRotated = false ∧
    (tissueLoopStep ⟨3, false, true, 40⟩ false 7).msgs = [(Peer.water, 0), (Peer.soap, 0)] ∧
    (tissueLoopStep ⟨3, false, true, 40⟩ false 7).clockEnd = 7 + 3040 :=
  tissue_reset_same_iteration ⟨3, false, true, 40⟩ 7 rfl rfl

/-- C8 counterexample: in the dispensing iteration the confirmation buzzer
starts at clock 200 but the 200 ms stop check only executes after the
blocking sweep and pauses, at clock 3040 — i.e. 2840 ms after
`buzzerStartTime`, so the buzzer stays active far longer than its 200 ms
window. -/
theorem buzzer_window_cx :
    (tissueLoopStep ⟨3, false, false, 0⟩ false 0).buzzerStart = some 200 ∧
    (tissueLoopStep ⟨3, false, false, 0⟩ false 0).buzzerStop = some 3040 ∧
    ¬ (3040 - 200 ≤ 200) := by decide

/-- C8 (amended): the buzzer is stopped by its own independent
`buzzerActive`/`buzzerStartTime` tracking at the first evaluation of the stop
check after its 200 ms window elapses; but because the servo sweep and the
pauses block the loop, that check runs only at the end of the dispensing
iteration, 2840 ms after `buzzerStartTime`, so the buzzer can be active well
beyond 200 ms after `buzzerStartTime`. -/
theorem buzzer_stopped_first_check (s : TissueState) (t : Nat)
    (h3 : s.processStage = 3) (hr : s.hasRotated = false)
    (hb : s.buzzerActive = false) :
    (tissueLoopStep s false t).buzzerStart = some (t + 200) ∧
    (tissueLoopStep s false t).buzzerStop = some (t + 3040) ∧
    (tissueLoopStep s false t).state.buzzerActive = false ∧
    t + 3040 - (t + 200) = 2840 := by
  obtain ⟨st, rot, ba, bst⟩ := s
  simp only at h3 hr hb
  subst h3; subst hr; subst hb
  have hdur : rotateServoDuration 90 180 40 = 1840 := by decide
  have harith : t + 200 + 1840 + 1000 - (t + 200) = 2840 := by omega
  simp [tissueLoopStep, hdur, harith, sendResetSignal]

/-- C8 witness: the amended theorem at a concrete state and clock. -/
theorem buzzer_stopped_first_check_w :
    (tissueLoopStep ⟨3, false, false, 9⟩ false 60).buzzerStart = some (60 + 200) ∧
    (tissueLoopStep ⟨3, false, false, 9⟩ false 60).buzzerStop = some (60 + 3040) ∧
    (tissueLoopStep ⟨3, false, false, 9⟩ false 60).state.buzzerActive = false ∧
    60 + 3040 - (60 + 200) = 2840 :=
  buzzer_stopped_first_check ⟨3, false, false, 9⟩ 60 rfl rfl rfl

/-- C3: on every node, a `/update_stage` request with no `stage` parameter
returns 400 and leaves the whole node state (in particular the stage)
unchanged; a request carrying a parsed integer `v` returns 200 and
unconditionally overwrites the local stage with `v` — any `v`, with no range
validation — touching nothing else. -/
theorem update_stage_validation :
    (∀ s : WaterState, waterUpdateStage none s = (s, 400)) ∧
    (∀ (v : Int) (s : WaterState),
      waterUpdateStage (some v) s = ({ s with processStage := v }, 200)) ∧
    (∀ s : SoapState, soapUpdateStage none s = (s, 400)) ∧
    (∀ (v : Int) (s : SoapState),
      soapUpdateStage (some v) s = ({ s with processStage := v }, 200)) ∧
    (∀ s : TissueState, tissueUpdateStage none s = (s, 400)) ∧
    (∀ (v : Int) (s : TissueState),
      tissueUpdateStage (some v) s = ({ s with processStage := v }, 200)) :=
  ⟨fun _ => rfl, fun _ _ => rfl, fun _ => rfl, fun _ _ => rfl, fun _ => rfl, fun _ _ => rfl⟩

/-- C7: on every node, in every state, handling `/update_stage?stage=v` twice
in succession leaves the node state identical to handling it once (overwrite
idempotence of the stage-update handler). -/
theorem update_stage_idempotent :
    (∀ (v : Int) (s : WaterState),
      (waterUpdateStage (some v) (waterUpdateStage (some v) s).1).1 =
        (waterUpdateStage (some v) s).1) ∧
    (∀ (v : Int) (s : SoapState),
      (soapUpdateStage (some v) (soapUpdateStage (some v) s).1).1 =
        (soapUpdateStage (some v) s).1) ∧
    (∀ (v : Int) (s : TissueState),
      (tissueUpdateStage (some v) (tissueUpdateStage (some v) s).1).1 =
        (tissueUpdateStage (some v) s).1) :=
  ⟨fun _ _ => rfl, fun _ _ => rfl, fun _ _ => rfl⟩

/-- C4: water node at stage 0 with the pump idle and a 5 cm hand reading —
the pump starts in that very iteration (start time recorded right after the
50 ms sensor pause, no grace delay, no message yet); and in any iteration in
which the pump is running at stage 0 and 5000 ms have elapsed since
`pumpStartTime`, the pump stops, stage 1 is sent to both the soap and tissue
peers, and the local stage becomes 1. -/
theorem water_stage0_hand_cycle :
    (∀ (s : WaterState) (d1 : Int) (t : Nat),
      s.processStage = 0 → s.pumpRunning = false →
      (waterLoopStep s d1 5 t).state.pumpRunning = true ∧
      (waterLoopStep s d1 5 t).state.pumpStartTime = t + 50 ∧
      (waterLoopStep s d1 5 t).state.processStage = 0 ∧
      (waterLoopStep s d1 5 t).msgs = [] ∧
      (waterLoopStep s d1 5 t).clockEnd = t + 50) ∧
    (∀ (s : WaterState) (d1 d2 : Int) (t : Nat),
      s.processStage = 0 → s.pumpRunning = true →
      s.pumpStartTime + 5000 ≤ t + 50 →
      (waterLoopStep s d1 d2 t).state.pumpRunning = false ∧
      (waterLoopStep s d1 d2 t).state.processStage = 1 ∧
      (waterLoopStep s d1 d2 t).msgs = [(Peer.soap, 1), (Peer.tissue, 1)]) := by
  constructor
  · intro s d1 t h0 hr
    simp [waterLoopStep, h0, hr]
  · intro s d1 d2 t h0 hr hle
    have hc : 5000 ≤ t + 50 - s.pumpStartTime := by omega
    simp [waterLoopStep, h0, hr, hc, waterSendCompletionSignal]

/-- C4 witness: both parts of the theorem at concrete states and clocks. -/
theorem water_stage0_hand_cycle_w :
    (waterLoopStep ⟨0, 7, 20, false, 0⟩ 7 5 100).state.pumpRunning = true ∧
    (waterLoopStep ⟨0, 7, 5, true, 150⟩ 7 5 6000).msgs =
      [(Peer.soap, 1), (Peer.tissue, 1)] :=
  ⟨(water_stage0_hand_cycle.1 ⟨0, 7, 20, false, 0⟩ 7 100 rfl rfl).1,
   (water_stage0_hand_cycle.2 ⟨0, 7, 5, true, 150⟩ 7 5 6000 rfl rfl (by decide)).2.2⟩

/-- C5: soap node at stage 1 with the pump idle — the pump starts in that very
iteration regardless of the soap-level reading (start time right after the
50 ms sensor pause); while fewer than 2000 ms have elapsed the pump keeps
running and nothing is sent; once 2000 ms have elapsed since `pumpStartTime`
the pump stops, stage 2 is sent to both the water and tissue peers, and the
local stage becomes 2. -/
theorem soap_stage1_cycle :
    (∀ (s : SoapState) (d1 : Int) (t : Nat),
      s.processStage = 1 → s.pumpRunning = false →
      (soapLoopStep s d1 t).state.pumpRunning = true ∧
      (soapLoopStep s d1 t).state.pumpStartTime = t + 50 ∧
      (soapLoopStep s d1 t).state.processStage = 1 ∧
      (soapLoopStep s d1 t).msgs = []) ∧
    (∀ (s : SoapState) (d1 : Int) (t : Nat),
      s.processStage = 1 → s.pumpRunning = true →
      t + 50 < s.pumpStartTime + 2000 →
      (soapLoopStep s d1 t).state.pumpRunning = true ∧
      (soapLoopStep s d1 t).state.processStage = 1 ∧
      (soapLoopStep s d1 t).msgs = []) ∧
    (∀ (s : SoapState) (d1 : Int) (t : Nat),
      s.processStage = 1 → s.pumpRunning = true →
      s.pumpStartTime + 2000 ≤ t + 50 →
      (soapLoopStep s d1 t).state.pumpRunning = false ∧
      (soapLoopStep s d1 t).state.processStage = 2 ∧
      (soapLoopStep s d1 t).msgs = [(Peer.water, 2), (Peer.tissue, 2)]) := by
  refine ⟨?_, ?_, ?_⟩
  · intro s d1 t h1 hr
    simp [soapLoopStep, h1, hr]
  · intro s d1 t h1 hr hlt
    have hc : ¬ 2000 ≤ t + 50 - s.pumpStartTime := by omega
    simp [soapLoopStep, h1, hr, hc]
  · intro s d1 t h1 hr hle
    have hc : 2000 ≤ t + 50 - s.pumpStartTime := by omega
    simp [soapLoopStep, h1, hr, hc, soapSendCompletionSignal]

/-- C5 witness: the three parts of the theorem at concrete states and clocks. -/
theorem soap_stage1_cycle_w :
    (soapLoopStep ⟨1, 6, false, 0⟩ 6 0).state.pumpRunning = true ∧
    (soapLoopStep ⟨1, 6, true, 50⟩ 6 1000).state.pumpRunning = true ∧
    (soapLoopStep ⟨1, 6, true, 50⟩ 6 2000).msgs = [(Peer.water, 2), (Peer.tissue, 2)] :=
  ⟨(soap_stage1_cycle.1 ⟨1, 6, false, 0⟩ 6 0 rfl rfl).1,
   (soap_stage1_cycle.2.1 ⟨1, 6, true, 50⟩ 6 1000 rfl rfl (by decide)).1,
   (soap_stage1_cycle.2.2 ⟨1, 6, true, 50⟩ 6 2000 rfl rfl (by decide)).2.2⟩

/-- C6: water node at stage 2 with the pump idle — regardless of the
hand-distance reading, the iteration blocks for the 5000 ms grace delay and
then starts the pump (start time `t + 5050`, no message yet); and in any
iteration in which the pump is running at stage 2 and 5000 ms have elapsed
since `pumpStartTime`, the pump stops, stage 3 is sent to both peers, and the
local stage becomes 3 (cycle done). -/
theorem water_stage2_cycle :
    (∀ (s : WaterState) (d1 d2 : Int) (t : Nat),
      s.processStage = 2 → s.pumpRunning = false →
      (waterLoopStep s d1 d2 t).state.pumpRunning = true ∧
      (waterLoopStep s d1 d2 t).state.pumpStartTime = t + 50 + 5000 ∧
      (waterLoopStep s d1 d2 t).state.processStage = 2 ∧
      (waterLoopStep s d1 d2 t).msgs = [] ∧
      (waterLoopStep s d1 d2 t).clockEnd = t + 50 + 5000) ∧
    (∀ (s : WaterState) (d1 d2 : Int) (t : Nat),
      s.processStage = 2 → s.pumpRunning = true →
      s.pumpStartTime + 5000 ≤ t + 50 →
      (waterLoopStep s d1 d2 t).state.pumpRunning = false ∧
      (waterLoopStep s d1 d2 t).state.processStage = 3 ∧
      (waterLoopStep s d1 d2 t).msgs = [(Peer.soap, 3), (Peer.tissue, 3)]) := by
  constructor
  · intro s d1 d2 t h2 hr
    simp [waterLoopStep, h2, hr]
  · intro s d1 d2 t h2 hr hle
    have hc : 5000 ≤ t + 50 - s.pumpStartTime := by omega
    simp [waterLoopStep, h2, hr, hc, waterSendCompletionSignal]

/-- C6 witness: both parts of the theorem at concrete states and clocks. -/
theorem water_stage2_cycle_w :
    (waterLoopStep ⟨2, 7, 99, false, 0⟩ 7 99 0).state.pumpStartTime = 0 + 50 + 5000 ∧
    (waterLoopStep ⟨2, 7, 99, true, 5050⟩ 7 99 10100).msgs =
      [(Peer.soap, 3), (Peer.tissue, 3)] :=
  ⟨(water_stage2_cycle.1 ⟨2, 7, 99, false, 0⟩ 7 99 0 rfl rfl).2.1,
   (water_stage2_cycle.2 ⟨2, 7, 99, true, 5050⟩ 7 99 10100 rfl rfl (by decide)).2.2⟩

/-- C10 (implicit): on the water node at stage 0 with the pump idle, a
hand-sensor timeout (`getDistance` returning the -1 sentinel because
`pulseIn` yielded no echo) satisfies the trigger condition
`distance2 < 10`, so the iteration starts the pump exactly as a 5 cm hand
reading would: the resulting state differs from the 5 cm run only in the
recorded `distance2`. -/
theorem sentinel_triggers_pump :
    getDistance 0 = -1 ∧ ((-1 : Int) < 10) ∧
    (∀ (s : WaterState) (d1 : Int) (t : Nat),
      s.processStage = 0 → s.pumpRunning = false →
      (waterLoopStep s d1 (getDistance 0) t).state.pumpRunning = true ∧
      (waterLoopStep s d1 (getDistance 0) t).state.pumpStartTime = t + 50 ∧
      (waterLoopStep s d1 (getDistance 0) t).state =
        { (waterLoopStep s d1 5 t).state with distance2 := -1 }) := by
  refine ⟨rfl, by decide, ?_⟩
  intro s d1 t h0 hr
  have hd : getDistance 0 = -1 := rfl
  rw [hd]
  simp [waterLoopStep, h0, hr]

/-- C10 witness: the quantified part of the theorem at a concrete state and clock. -/
theorem sentinel_triggers_pump_w :
    (waterLoopStep ⟨0, 8, 30, false, 0⟩ 8 (getDistance 0) 400).state.pumpRunning = true ∧
    (waterLoopStep ⟨0, 8, 30, false, 0⟩ 8 (getDistance 0) 400).state =
      { (waterLoopStep ⟨0, 8, 30, false, 0⟩ 8 5 400).state with distance2 := -1 } :=
  ⟨(sentinel_triggers_pump.2.2 ⟨0, 8, 30, false, 0⟩ 8 400 rfl rfl).1,
   (sentinel_triggers_pump.2.2 ⟨0, 8, 30, false, 0⟩ 8 400 rfl rfl).2.2⟩

/-- C9 evidence: every node's `/status` handler answers 200, and the water
and soap bodies are well-formed JSON objects with exactly the documented
fields; but the tissue handler appends a comma after the `servo_rotated`
field, directly before the closing brace, so its body is not well-formed
JSON (shown here at a concrete state; the trailing comma is emitted in every
state). -/
theorem status_json_tissue_malformed :
    waterServeStatus ⟨0, 7, 25, false, 0⟩ =
      (200, "\x7b\"water_level\":7,\"hand_distance\":25,\"pump_running\":false,\"process_stage\":0\x7d") ∧
    isJsonValue (waterStatusJson ⟨0, 7, 25, false, 0⟩) = true ∧
    soapServeStatus ⟨1, 4, true, 0⟩ =
      (200, "\x7b\"soap_level\":4,\"pump_running\":true,\"process_stage\":1\x7d") ∧
    isJsonValue (soapStatusJson ⟨1, 4, true, 0⟩) = true ∧
    tissueServeStatus ⟨0, false, false, 0⟩ true =
      (200, "\x7b\"process_stage\":0,\"microswitch\":true,\"servo_rotated\":false,\x7d") ∧
    isJsonValue (tissueStatusJson ⟨0, false, false, 0⟩ true) = false := by
  decide
